import Mathlib

/-!
Shallow embedding of the `simpletest` unit-test harness
(`simpletest.cpp`, `simpletest_signal.cpp`, `simpletest_iocapturer.cpp`
and their headers), together with theorems settling the specification
claims about it.

Machine integers are modelled as `Nat`/`Int`; OS state (the thread-local
signal bookkeeping, the file-descriptor wiring of the three standard
streams) is modelled as explicit state records; C++ `throw` is modelled
with `Except`, the thrown value being a `CppThrown`.
-/

namespace simpletest

/-! ### Signal numbers

The usual POSIX/Linux values of the four signals named in
`simpletest_signal.cpp`. -/

def SIGINT : Nat := 2

def SIGABRT : Nat := 6

def SIGSEGV : Nat := 11

def SIGTERM : Nat := 15

/-- `static const sig_atomic_t signals[] = {SIGINT, SIGABRT, SIGSEGV, SIGTERM};` -/
def signals : List Nat := [SIGINT, SIGABRT, SIGSEGV, SIGTERM]

/-! ### Thread-local signal state

`simpletest_signal.cpp` keeps `thread_local int instanceCount`,
`thread_local volatile sig_atomic_t s_signo = 0` and
`thread_local volatile bool s_exit = false`.  (The `jmp_buf` carries no
data we need: a trip always transfers to the most recent recovery
point.) -/

structure SignalState where
  instanceCount : Int
  s_signo : Nat
  s_exit : Bool
deriving DecidableEq

/-- Thread start: no handler instance, no signal observed, no exit request. -/
def initialSignalState : SignalState := ⟨0, 0, false⟩

/-- `static void handler(int signo)`: the `switch` falls through
`SIGABRT`, `SIGINT`, `SIGTERM` into `s_exit = true` (note: no `SIGSEGV`
case), then `s_signo = signo` and `longjmp`. -/
def handler (signo : Nat) (st : SignalState) : SignalState :=
  let st1 :=
    if signo = SIGABRT ∨ signo = SIGINT ∨ signo = SIGTERM then
      { st with s_exit := true }
    else st
  { st1 with s_signo := signo }

/-- `sig_atomic_t SignalHandler::lastSignal()` returns `s_signo`. -/
def lastSignal (st : SignalState) : Nat := st.s_signo

/-- `bool SignalHandler::shouldExit()` returns `s_exit`. -/
def shouldExit (st : SignalState) : Bool := st.s_exit

/-- `const char* SignalHandler::signalToString(sig_atomic_t signo)`. -/
def signalToString (signo : Nat) : String :=
  if signo = SIGINT then "Interrupt signal"
  else if signo = SIGABRT then "Abort signal"
  else if signo = SIGSEGV then "Segmentation fault"
  else if signo = SIGTERM then "Termination signal"
  else "Unknown signal"

/-! ### C++ thrown values

The catch chain in `runTests` distinguishes the exception classes of the
harness, then `std::exception&`, then `catch (...)`.  A thrown *pointer*
(as in `throw new std::logic_error{...}` in `SignalHandler`'s
constructor) is not derived from `std::exception` and is matched only by
the catch-all. -/

inductive CppExcObject where
  | failedAssertion (what : String)
  | failedExpectation (what : String)
  | signalException (signo : Nat)
  | logicError (what : String)
  | runtimeError (what : String)
deriving DecidableEq

inductive CppThrown where
  | object (e : CppExcObject)
  | pointer (e : CppExcObject)
deriving DecidableEq

/-- The value thrown by `SignalHandler::SignalHandler()` on re-entry:
`throw new std::logic_error("Cannot have more than one instance of signal
handler at a time in one thread.");` — a pointer, not an exception
object. -/
def signalHandlerReentrancyThrown : CppThrown :=
  CppThrown.pointer (CppExcObject.logicError
    "Cannot have more than one instance of signal handler at a time in one thread.")

/-- `SignalHandler::SignalHandler()`: throws (a pointer) when
`instanceCount > 0`, otherwise increments `instanceCount` and installs
the handlers.  Installing dispositions and the `setjmp` guard do not
touch `s_signo`/`s_exit`. -/
def signalHandlerCtor (st : SignalState) : Except CppThrown SignalState :=
  if st.instanceCount > 0 then Except.error signalHandlerReentrancyThrown
  else Except.ok { st with instanceCount := st.instanceCount + 1 }

/-- `SignalHandler::~SignalHandler()`: decrements `instanceCount` and
restores default dispositions; `s_signo`/`s_exit` are untouched. -/
def signalHandlerDtor (st : SignalState) : SignalState :=
  { st with instanceCount := st.instanceCount - 1 }

/-- Modelled from the spec: the body of `SignalException`'s constructor
is not under `src/` (only its declaration in `simpletest_signal.hpp`),
so `what()` of a `SignalException` is modelled from the spec's error
taxonomy, which gives the reason of a `SignalRaised` failure as
`"Signal thrown: "` followed by the signal's name. -/
def signalExceptionWhat (signo : Nat) : String := signalToString signo

/-! ### The runner's failure classification (`runTests`' catch chain) -/

/-- The failure reason stored by `setFailureReason` in each catch branch
of `runTests`: the exception's own `what()` for `FailedAssertion` and
`FailedExpectation`, `"Signal thrown: " + e.what()` for
`SignalException`, `"Internal error: " + e.what()` for any other
`std::exception` object, and `"Unknown internal error"` for anything
else (in particular for thrown pointers). -/
def catchReason : CppThrown → String
  | CppThrown.object (CppExcObject.failedAssertion w) => w
  | CppThrown.object (CppExcObject.failedExpectation w) => w
  | CppThrown.object (CppExcObject.signalException signo) =>
      "Signal thrown: " ++ signalExceptionWhat signo
  | CppThrown.object (CppExcObject.logicError w) => "Internal error: " ++ w
  | CppThrown.object (CppExcObject.runtimeError w) => "Internal error: " ++ w
  | CppThrown.pointer _ => "Unknown internal error"

/-- The outcome text `runTests` prints on the progress line for a thrown
value: the assertion/expectation branches print `"Failed: " << e.what()`,
the remaining branches print the stored failure reason itself. -/
def coutOutcomeText : CppThrown → String
  | CppThrown.object (CppExcObject.failedAssertion w) => "Failed: " ++ w
  | CppThrown.object (CppExcObject.failedExpectation w) => "Failed: " ++ w
  | t => catchReason t

/-! ### `nDigits` and report layout helpers -/

/-- The loop body of `nDigits`: `val` starts at 1 and is multiplied by
10 until it exceeds `x`, counting iterations.  `fuel` is an upper bound
on the iteration count (the loop runs at most `x` times since `val`
grows strictly); it exists only to make the recursion structural and is
never exhausted when `nDigits` calls it. -/
def nDigitsGo (x : Nat) : Nat → Nat → Nat → Nat
  | 0, _, ctr => ctr
  | fuel + 1, val, ctr =>
      if val ≤ x then nDigitsGo x fuel (val * 10) (ctr + 1) else ctr

/-- `static T nDigits(T x)` from `simpletest.cpp`: the number of digits
of `x` as computed by the source's loop (note `nDigits 0 = 0`, since
`val = 1 ≤ 0` fails immediately). -/
def nDigits (x : Nat) : Nat := nDigitsGo x (x + 1) 1 0

/-- `std::left << std::setw(w)`: left-justify a field to width `w`,
padding with spaces. -/
def leftJustify (s : String) (w : Nat) : String :=
  s ++ String.mk (List.replicate (w - s.length) ' ')

/-- The maximum-name-length computation of `runTests`/`printResults`:
seed with the first element, then for each further element replace the
maximum when strictly greater.  (The sources never reach this on an
empty list along a defined path; `[]` is given the junk value 0.) -/
def maxLenCode : List Nat → Nat
  | [] => 0
  | h :: t => t.foldl (fun m x => if x > m then x else m) h

/-! ### Test bodies and the runner -/

/-- What a registered test's entry point does with the handles it is
given.  `armThenSignal` models a body that arms a recovery point via
`ActivateSignalHandler` and then receives one of the trapped signals;
`ctorSecondHandler` models a body that constructs a second
`SignalHandler` while the runner's one is live. -/
inductive TestBehavior where
  | ret
  | throwExc (t : CppThrown)
  | armThenSignal (signo : Nat)
  | ctorSecondHandler
deriving DecidableEq

/-- How the dynamic extent of one test body ends: normal return, a
thrown value propagating out, or `std::exit` (the fatal-signal path of
`ActivateSignalHandler`). -/
inductive BodyResult where
  | normal
  | thrown (t : CppThrown)
  | procExit
deriving DecidableEq

/-- Behaviours that never reach the `std::exit` branch of
`ActivateSignalHandler`, i.e. never deliver a signal whose `handler`
sets `s_exit`. -/
def nonExiting : TestBehavior → Bool
  | TestBehavior.armThenSignal signo =>
      !(signo == SIGABRT || signo == SIGINT || signo == SIGTERM)
  | _ => true

/-- One test body's execution.  For `armThenSignal`, `handler` runs and
the trampoline returns to the recovery point, where
`ActivateSignalHandler` either calls `std::exit(1)` (when
`shouldExit()`) or throws `SignalException(lastSignal())`. -/
def runBody (st : SignalState) : TestBehavior → SignalState × BodyResult
  | TestBehavior.ret => (st, BodyResult.normal)
  | TestBehavior.throwExc t => (st, BodyResult.thrown t)
  | TestBehavior.armThenSignal signo =>
      let st1 := handler signo st
      if shouldExit st1 then (st1, BodyResult.procExit)
      else (st1, BodyResult.thrown
        (CppThrown.object (CppExcObject.signalException (lastSignal st1))))
  | TestBehavior.ctorSecondHandler =>
      match signalHandlerCtor st with
      | Except.error t => (st, BodyResult.thrown t)
      | Except.ok st1 => (signalHandlerDtor st1, BodyResult.normal)

/-- A test's status as recorded in its `UnitTest` after the run. -/
inductive Status where
  | passed
  | failed (reason : String)
deriving DecidableEq

/-- One rendered progress line of `runTests`, split at the `<<`
boundaries: `"Test "` + left-justified 1-based index + `" ("` + name +
`")"` + `dots` dot characters + outcome text + newline. -/
structure ProgressLine where
  idxField : String
  name : String
  dots : Nat
  outcome : String
deriving DecidableEq

/-- The loop of `runTests` over the registered tests.  Per test: the
progress-line prefix with `maxLen - name.length + 3` dots, then one
`IOCapturer` and one `SignalHandler` are constructed, the body runs, the
outcome is classified by the catch chain and the handler is destroyed
on the non-exit paths.  Returns the final signal state, the progress
lines, the recorded outcomes, and whether `std::exit` cut the run
short. -/
def runTestsLoop (count maxLen : Nat) (st : SignalState) (i : Nat) :
    List (String × TestBehavior) →
      SignalState × List ProgressLine × List (Nat × String × Status) × Bool
  | [] => (st, [], [], false)
  | (name, b) :: rest =>
      let idxField := leftJustify (toString (i + 1)) (nDigits count)
      let dots := maxLen - name.length + 3
      match signalHandlerCtor st with
      | Except.error t =>
          let (st', ls, os, ex) := runTestsLoop count maxLen st (i + 1) rest
          (st', ProgressLine.mk idxField name dots (coutOutcomeText t) :: ls,
            (i, name, Status.failed (catchReason t)) :: os, ex)
      | Except.ok st1 =>
          match runBody st1 b with
          | (st2, BodyResult.procExit) =>
              (st2, [ProgressLine.mk idxField name dots ""], [], true)
          | (st2, BodyResult.normal) =>
              let (st', ls, os, ex) :=
                runTestsLoop count maxLen (signalHandlerDtor st2) (i + 1) rest
              (st', ProgressLine.mk idxField name dots "Passed" :: ls,
                (i, name, Status.passed) :: os, ex)
          | (st2, BodyResult.thrown t) =>
              let (st', ls, os, ex) :=
                runTestsLoop count maxLen (signalHandlerDtor st2) (i + 1) rest
              (st', ProgressLine.mk idxField name dots (coutOutcomeText t) :: ls,
                (i, name, Status.failed (catchReason t)) :: os, ex)

/-- The run's observable result. -/
structure RunResult where
  finalState : SignalState
  lines : List ProgressLine
  outcomes : List (Nat × String × Status)
  exited : Bool
deriving DecidableEq

/-- `static std::vector<std::pair<size_t, const UnitTest&>>
runTests(std::vector<UnitTest>&)`: early `return {}` on an empty vector,
otherwise the maximum registered name length seeds the dot alignment of
every progress line and the loop above runs.  Caveat: the source's
maximum-length update, `maxLen = std::strlen(elem.second)`
(simpletest.cpp:201), is ill-formed on a `UnitTest` (the file does not
compile as written); the guard around it compares
`std::strlen(elem.getName()) > maxLen`, and the maximum registered name
length used here is that comparison's evident intent. -/
def runTests (st : SignalState) (tests : List (String × TestBehavior)) : RunResult :=
  match tests with
  | [] => ⟨st, [], [], false⟩
  | _ :: _ =>
      let maxLen := maxLenCode (tests.map (fun p => p.1.length))
      let (st', ls, os, ex) := runTestsLoop tests.length maxLen st 0 tests
      ⟨st', ls, os, ex⟩

/-- An element of `__failvec` (`std::pair<size_t, const UnitTest&>`).
Only the `size_t` index, stored by value, stays valid.  The
`const UnitTest&` member is bound to `.second` of the `std::make_pair`
temporary in `__failvec.push_back(std::make_pair(i, __testvec[i]))`
(simpletest.cpp:221/226/232/238/243); that temporary is destroyed at the
end of the `push_back` statement, and building it already gutted
`__testvec[i]` itself, because the only copy constructor is
`UnitTest(UnitTest& other){ swap(*this, other); }`.  Every stored
reference is therefore dangling by the time `printResults` runs, so an
entry carries no valid name or failure-reason data — only its index. -/
structure FailRef where
  idx : Nat
deriving DecidableEq

/-- `__failvec` as accumulated by the catch branches: one entry, in
order, per test whose outcome is `failed`. -/
def failvecOf : List (Nat × String × Status) → List FailRef
  | [] => []
  | (_, _, Status.passed) :: rest => failvecOf rest
  | (i, _, Status.failed _) :: rest => FailRef.mk i :: failvecOf rest

/-- The summary block `printResults` is meant to print (counts and count
field width, followed by aligned failure lines).  No call produces one —
see `printResults`. -/
structure ResultsReport where
  passedCount : Nat
  failedCount : Nat
  countWidth : Nat
deriving DecidableEq

/-- `static void printResults(size_t, std::vector<...>&)`.  Neither
branch has a defined result, so both are modelled as `none`.  The
function's first statement is
`std::strlen(__failvec[0].second.getName())` (simpletest.cpp:133),
executed *before* the `__failvec.size() == 0` check at line 152 that
would print `"No failed tests"`: on an empty failure list that is an
out-of-bounds read of the empty vector.  On a non-empty list the same
statement reads through a dangling `const UnitTest&` (see `FailRef`),
and the summary loop's rendering expressions are moreover ill-formed as
written: `std::get<const char*>(elem)` at line 162, `elem.getName()` on
a `std::pair` at line 165, and `operator<<` on a `std::optional` at
line 169. -/
def printResults (_testvecSize : Nat) (failvec : List FailRef) :
    Option ResultsReport :=
  match failvec with
  | [] => none
  | _ :: _ => none

/-- `int __executetests(int, char**)`: run the tests, print the report,
return `__failvec.size()`.  `none` models the paths on which no value is
returned: the fatal-signal `std::exit` inside the run, and the undefined
reads `printResults` performs (out of bounds when the failure list is
empty, through dangling references otherwise).  The `some` branch below
is the `return __failvec.size();` statement, which no defined path
through `printResults` reaches. -/
def executetests (st : SignalState) (tests : List (String × TestBehavior)) :
    Option Nat :=
  let r := runTests st tests
  if r.exited then none
  else
    match printResults tests.length (failvecOf r.outcomes) with
    | none => none
    | some _ => some (failvecOf r.outcomes).length

/-! ### The stream capturer (`simpletest_iocapturer.cpp`) -/

/-- `struct IOCapturerImpl`: the saved original stream handles and the
two pipes.  File descriptors are modelled as identifiers of the open
descriptions they refer to. -/
structure IOCapturerImpl where
  stdoutOld : Nat
  stderrOld : Nat
  stdinOld : Nat
  stdoutPipe : Nat × Nat
  stdinPipe : Nat × Nat
deriving DecidableEq

/-- The process-wide stream state an `IOCapturer` manipulates:
`IOCapturer::instanceCount`, the open description each standard stream
slot is currently wired to, a fresh-description allocator for
`pipe`/`dup`, and the live session's `impl` (if any). -/
structure IOWorld where
  instanceCount : Int
  stdoutDesc : Nat
  stderrDesc : Nat
  stdinDesc : Nat
  nextDesc : Nat
  live : Option IOCapturerImpl
deriving DecidableEq

/-- The value thrown by `IOCapturer::IOCapturer()` on re-entry: a
`std::logic_error` *object* this time. -/
def ioReentrancyThrown : CppThrown :=
  CppThrown.object (CppExcObject.logicError
    "Only one instance of IOCapturer can be active at a time")

/-- `IOCapturer::IOCapturer()`: the `instanceCount != 0` check (and
throw) comes before any `pipe`/`dup`/`dup2`, so a failed construction
carries the world back unchanged.  On success: two pipes are created,
the three current stream descriptions are saved via `dup`, and
stdout/stderr are rewired to the stdout pipe's write end and stdin to
the stdin pipe's read end. -/
def ioCapturerCtor (w : IOWorld) : Except (CppThrown × IOWorld) IOWorld :=
  if w.instanceCount ≠ 0 then Except.error (ioReentrancyThrown, w)
  else
    let d := w.nextDesc
    let impl : IOCapturerImpl :=
      ⟨w.stdoutDesc, w.stderrDesc, w.stdinDesc, (d, d + 1), (d + 2, d + 3)⟩
    Except.ok
      { instanceCount := w.instanceCount + 1
        stdoutDesc := d + 1
        stderrDesc := d + 1
        stdinDesc := d + 2
        nextDesc := d + 4
        live := some impl }

/-! ### `IOCapturer::getLastLine` -/

/-- `(s.reverse.takeWhile (· != newline)).reverse`: everything after the
last newline of `s` (all of `s` when it has none) — the
`std::string(input.c_str() + pos + 1)` branch. -/
def afterLastNewline (s : List Char) : List Char :=
  (s.reverse.takeWhile (fun c => c != '\n')).reverse

/-- `static std::string IOCapturer::getLastLine(std::string input)`:
if `input` has no newline it is returned whole; if it ends with a
newline that newline is removed and the search repeats; otherwise the
suffix after the last newline is returned. -/
def getLastLine (s : List Char) : List Char :=
  if h : '\n' ∈ s then
    if s.getLast? = some '\n' then getLastLine s.dropLast
    else afterLastNewline s
  else s
termination_by s.length
decreasing_by
  have hne : s ≠ [] := List.ne_nil_of_mem h
  have hpos : 0 < s.length := List.length_pos.mpr hne
  simp only [List.length_dropLast]
  omega

/-- The spec's own words for `lastLine`, stated independently of the
code: first strip every trailing newline, … -/
def stripTrailingNewlines (s : List Char) : List Char :=
  (s.reverse.dropWhile (fun c => c == '\n')).reverse

/-- … then return the suffix following the final remaining newline (the
whole remaining string when none remains). -/
def lastLineSpec (s : List Char) : List Char :=
  afterLastNewline (stripTrailingNewlines s)

/-! ### `IOCapturer::sendToStdin` -/

/-- The observable effect of one `sendToStdin` call: the payloads passed
to `write` (in order), and whether the channel was switched to
non-blocking mode first. -/
structure SendResult where
  writes : List (List Char)
  nonBlocking : Bool
deriving DecidableEq

/-- `void IOCapturer::sendToStdin(const char* line)`: when `line` does
not already end in a newline, a copy with `"\n"` appended is built
(`strcpy`/`strcat`); `fcntl(..., O_NONBLOCK)` is set; the whole payload
goes to the stdin pipe in a single `write`.  (`line` is a C string read
through `strlen`, hence nonempty and NUL-free in any defined call.) -/
def sendToStdin (line : List Char) : SendResult :=
  let payload := if line.getLast? ≠ some '\n' then line ++ ['\n'] else line
  ⟨[payload], true⟩

/-! ### Expected per-test classification of a clean run

Closed forms for what the loop of `runTests` records, used to state the
claims about it. -/

/-- The status the catch chain records for one behaviour, for a run in
which the runner's own `SignalHandler` is the only live one and no
earlier fatal signal is pending. -/
def behaviorStatus : TestBehavior → Status
  | TestBehavior.ret => Status.passed
  | TestBehavior.throwExc t => Status.failed (catchReason t)
  | TestBehavior.armThenSignal signo =>
      Status.failed ("Signal thrown: " ++ signalExceptionWhat signo)
  | TestBehavior.ctorSecondHandler => Status.failed "Unknown internal error"

/-- The outcome text printed on the progress line for one behaviour. -/
def behaviorText : TestBehavior → String
  | TestBehavior.ret => "Passed"
  | TestBehavior.throwExc t => coutOutcomeText t
  | TestBehavior.armThenSignal signo =>
      coutOutcomeText (CppThrown.object (CppExcObject.signalException signo))
  | TestBehavior.ctorSecondHandler => "Unknown internal error"

/-- The outcome list a clean run records, one entry per test in order,
starting at ordinal `i`. -/
def expectedOutcomes (i : Nat) :
    List (String × TestBehavior) → List (Nat × String × Status)
  | [] => []
  | (n, b) :: rest => (i, n, behaviorStatus b) :: expectedOutcomes (i + 1) rest

/-- The progress lines a clean run prints. -/
def expectedLines (count maxLen i : Nat) :
    List (String × TestBehavior) → List ProgressLine
  | [] => []
  | (n, b) :: rest =>
      ProgressLine.mk (leftJustify (toString (i + 1)) (nDigits count)) n
        (maxLen - n.length + 3) (behaviorText b)
        :: expectedLines count maxLen (i + 1) rest

/-!
## Theorems
-/

/-- C1 (counterexample): `SIGSEGV` is one of the trapped signals the
claim classifies as fatal, yet delivering it through `handler` leaves
the exit-requested flag clear, so `shouldExit()` returns `false` after
the trampoline trips on a segmentation violation — the `switch` in
`handler` has no `SIGSEGV` case. -/
theorem handler_sigsegv_exit_flag_clear :
    SIGSEGV ∈ signals
    ∧ shouldExit (handler SIGSEGV initialSignalState) = false
    ∧ lastSignal (handler SIGSEGV initialSignalState) = SIGSEGV := by decide

/-- C1 (amended): for every trapped signal delivered during a test with
no exit already requested, the exit-requested flag is set exactly when
the signal is interrupt, abort, or termination; a segmentation violation
updates the last-signal number but leaves the flag clear. -/
theorem handler_exit_flag_iff (st : SignalState) (signo : Nat)
    (h : st.s_exit = false) :
    (shouldExit (handler signo st) = true
      ↔ (signo = SIGINT ∨ signo = SIGABRT ∨ signo = SIGTERM))
    ∧ lastSignal (handler signo st) = signo := by
  constructor
  · unfold handler shouldExit
    by_cases h1 : signo = SIGABRT ∨ signo = SIGINT ∨ signo = SIGTERM
    · simp only [if_pos h1]
      simp only [true_iff]
      tauto
    · simp only [if_neg h1]
      simp only [h]
      constructor
      · intro hfalse; cases hfalse
      · intro h2; exact absurd (by tauto) h1
  · unfold handler lastSignal
    by_cases h1 : signo = SIGABRT ∨ signo = SIGINT ∨ signo = SIGTERM <;>
      simp [h1]

/-- Witness for `handler_exit_flag_iff` at `SIGINT` and the initial
state. -/
theorem handler_exit_flag_iff_witness :
    initialSignalState.s_exit = false
    ∧ ((shouldExit (handler SIGINT initialSignalState) = true
          ↔ (SIGINT = SIGINT ∨ SIGINT = SIGABRT ∨ SIGINT = SIGTERM))
        ∧ lastSignal (handler SIGINT initialSignalState) = SIGINT) :=
  ⟨rfl, handler_exit_flag_iff initialSignalState SIGINT rfl⟩

/-- C9: successfully constructing a fresh `SignalHandler` after a
previous one observed a signal and was destroyed does not reset the
thread-local state: `lastSignal()` still returns the earlier signal's
number (not 0), and the exit-requested flag is also carried over. -/
theorem lastSignal_survives_handler_reconstruction (st : SignalState)
    (signo : Nat) (st2 : SignalState) (h0 : signo ≠ 0)
    (h2 : signalHandlerCtor (signalHandlerDtor (handler signo st))
        = Except.ok st2) :
    lastSignal st2 = signo ∧ lastSignal st2 ≠ 0
    ∧ st2.s_exit = (handler signo st).s_exit := by
  unfold signalHandlerCtor at h2
  split at h2
  · cases h2
  · simp only [Except.ok.injEq] at h2
    subst h2
    refine ⟨?_, ?_, rfl⟩
    · unfold lastSignal signalHandlerDtor handler
      by_cases h1 : signo = SIGABRT ∨ signo = SIGINT ∨ signo = SIGTERM <;>
        simp [h1]
    · intro hzero
      apply h0
      rw [← hzero]
      unfold lastSignal signalHandlerDtor handler
      by_cases h1 : signo = SIGABRT ∨ signo = SIGINT ∨ signo = SIGTERM <;>
        simp [h1]

/-- Witness for `lastSignal_survives_handler_reconstruction`: a
`SIGSEGV` trips the trampoline during an earlier test, that test's
handler is destroyed, a later test constructs a fresh one. -/
theorem lastSignal_survives_handler_reconstruction_witness :
    SIGSEGV ≠ 0
    ∧ (lastSignal (SignalState.mk 1 SIGSEGV false) = SIGSEGV
        ∧ lastSignal (SignalState.mk 1 SIGSEGV false) ≠ 0
        ∧ (SignalState.mk 1 SIGSEGV false).s_exit
            = (handler SIGSEGV (SignalState.mk 1 0 false)).s_exit) :=
  ⟨by decide,
    lastSignal_survives_handler_reconstruction (SignalState.mk 1 0 false)
      SIGSEGV (SignalState.mk 1 SIGSEGV false) (by decide) rfl⟩

/-- C3: constructing an `IOCapturer` while another is live fails with
the harness's reentrancy `std::logic_error` before any stream rewiring:
the constructor returns the thrown object together with the world
exactly as it was, so the live session's redirected streams and saved
original handles are untouched. -/
theorem iocapturer_reentrant_ctor_leaves_world_unchanged (w : IOWorld)
    (h : w.instanceCount ≠ 0) :
    ioCapturerCtor w = Except.error (ioReentrancyThrown, w)
    ∧ (∀ t w', ioCapturerCtor w = Except.error (t, w') →
        w'.stdoutDesc = w.stdoutDesc ∧ w'.stderrDesc = w.stderrDesc
        ∧ w'.stdinDesc = w.stdinDesc ∧ w'.live = w.live) := by
  have h1 : ioCapturerCtor w = Except.error (ioReentrancyThrown, w) := by
    unfold ioCapturerCtor
    rw [if_pos h]
  refine ⟨h1, ?_⟩
  intro t w' hw
  rw [h1] at hw
  simp only [Except.error.injEq, Prod.mk.injEq] at hw
  obtain ⟨-, hww⟩ := hw
  rw [← hww]
  exact ⟨rfl, rfl, rfl, rfl⟩

/-- Witness for `iocapturer_reentrant_ctor_leaves_world_unchanged` at a
world with one live capture session. -/
theorem iocapturer_reentrant_ctor_witness :
    (IOWorld.mk 1 21 21 22 24 (some (IOCapturerImpl.mk 0 1 2 (20, 21) (22, 23)))).instanceCount ≠ 0
    ∧ (ioCapturerCtor (IOWorld.mk 1 21 21 22 24 (some (IOCapturerImpl.mk 0 1 2 (20, 21) (22, 23))))
        = Except.error (ioReentrancyThrown,
            IOWorld.mk 1 21 21 22 24 (some (IOCapturerImpl.mk 0 1 2 (20, 21) (22, 23))))
      ∧ (∀ t w', ioCapturerCtor (IOWorld.mk 1 21 21 22 24 (some (IOCapturerImpl.mk 0 1 2 (20, 21) (22, 23))))
            = Except.error (t, w') →
          w'.stdoutDesc = (IOWorld.mk 1 21 21 22 24 (some (IOCapturerImpl.mk 0 1 2 (20, 21) (22, 23)))).stdoutDesc
          ∧ w'.stderrDesc = (IOWorld.mk 1 21 21 22 24 (some (IOCapturerImpl.mk 0 1 2 (20, 21) (22, 23)))).stderrDesc
          ∧ w'.stdinDesc = (IOWorld.mk 1 21 21 22 24 (some (IOCapturerImpl.mk 0 1 2 (20, 21) (22, 23)))).stdinDesc
          ∧ w'.live = (IOWorld.mk 1 21 21 22 24 (some (IOCapturerImpl.mk 0 1 2 (20, 21) (22, 23)))).live)) :=
  ⟨by decide,
    iocapturer_reentrant_ctor_leaves_world_unchanged
      (IOWorld.mk 1 21 21 22 24 (some (IOCapturerImpl.mk 0 1 2 (20, 21) (22, 23))))
      (by decide)⟩

/-- C7: for a non-empty line, `sendToStdin` performs exactly one
non-blocking write, whose bytes are the line with a single newline
appended when it lacked one and the line unchanged when it already
ended in one; either way the channel ends with a newline. -/
theorem sendToStdin_single_write (line : List Char) (hne : line ≠ []) :
    (sendToStdin line).writes.length = 1
    ∧ (sendToStdin line).nonBlocking = true
    ∧ (line.getLast? = some '\n' → (sendToStdin line).writes = [line])
    ∧ (line.getLast? ≠ some '\n' →
          (sendToStdin line).writes = [line ++ ['\n']])
    ∧ (sendToStdin line).writes.flatten.getLast? = some '\n' := by
  have hw1 : (sendToStdin line).writes
      = [if line.getLast? ≠ some '\n' then line ++ ['\n'] else line] := rfl
  by_cases h : line.getLast? = some '\n'
  · have hw : (sendToStdin line).writes = [line] := by rw [hw1]; simp [h]
    refine ⟨by rw [hw]; rfl, rfl, fun _ => hw, fun hcon => absurd h hcon, ?_⟩
    rw [hw]
    simpa using h
  · have hw : (sendToStdin line).writes = [line ++ ['\n']] := by
      rw [hw1]; simp [h]
    refine ⟨by rw [hw]; rfl, rfl, fun hcon => absurd hcon h, fun _ => hw, ?_⟩
    rw [hw]
    simp

/-- Witness for `sendToStdin_single_write`: `feedInput("hi")` writes
exactly `"hi\n"` in one shot. -/
theorem sendToStdin_single_write_witness :
    ("hi".data ≠ [])
    ∧ ((sendToStdin "hi".data).writes.length = 1
        ∧ (sendToStdin "hi".data).nonBlocking = true
        ∧ ("hi".data.getLast? = some '\n' →
              (sendToStdin "hi".data).writes = ["hi".data])
        ∧ ("hi".data.getLast? ≠ some '\n' →
              (sendToStdin "hi".data).writes = ["hi".data ++ ['\n']])
        ∧ (sendToStdin "hi".data).writes.flatten.getLast? = some '\n') :=
  ⟨by decide, sendToStdin_single_write "hi".data (by decide)⟩

/-- C4 (code bug): on a run in which zero tests fail, `printResults`
does read a failure-list entry — its very first step evaluates
`std::strlen(__failvec[0].second.getName())`, an out-of-bounds read of
the empty `__failvec`, before reaching the `size() == 0` check that
would print `"No failed tests"`.  The model therefore has no defined
report for the empty failure list, exhibited here both in general and on
the concrete all-passing two-test run. -/
theorem printResults_empty_failvec_out_of_bounds :
    (∀ n : Nat, printResults n [] = none)
    ∧ failvecOf (runTests initialSignalState
        [("alpha", TestBehavior.ret), ("beta", TestBehavior.ret)]).outcomes = []
    ∧ printResults 2 (failvecOf (runTests initialSignalState
        [("alpha", TestBehavior.ret), ("beta", TestBehavior.ret)]).outcomes) = none :=
  ⟨fun _ => rfl, by decide, by decide⟩

/-- C5 (code bug): `__executetests` has no defined return value on any
completed run, because `printResults` runs before
`return __failvec.size();` and performs an undefined read on both of its
branches: with zero failures the out-of-bounds `__failvec[0]` read, with
failures present a read through the dangling `__failvec` references.
Shown on an all-passing run and on a two-test run with one failed
assertion; the failure list itself does hold one (index-only) entry on
the latter, so the count the unreachable return statement would yield is
1 — but it is never returned with defined behavior. -/
theorem executetests_no_defined_return :
    executetests initialSignalState [("alpha", TestBehavior.ret)] = none
    ∧ executetests initialSignalState
        [("alpha", TestBehavior.throwExc
            (CppThrown.object (CppExcObject.failedAssertion "x == 4"))),
         ("beta", TestBehavior.ret)] = none
    ∧ failvecOf (runTests initialSignalState
        [("alpha", TestBehavior.throwExc
            (CppThrown.object (CppExcObject.failedAssertion "x == 4"))),
         ("beta", TestBehavior.ret)]).outcomes = [FailRef.mk 0] := by decide

/-! ### `getLastLine` agrees with the spec's description -/

/-- `dropWhile` keeps a list whose head already fails the predicate. -/
theorem dropWhile_eq_self_of_head {p : Char → Bool} {a : Char}
    {l : List Char} (h : p a = false) : (a :: l).dropWhile p = a :: l := by
  simp [List.dropWhile_cons, h]

/-- Splitting off a list's last element in reversed form. -/
theorem reverse_eq_getLast_cons (s : List Char) (hne : s ≠ []) :
    s.reverse = s.getLast hne :: s.dropLast.reverse := by
  conv_lhs => rw [← List.dropLast_append_getLast hne]
  simp

/-- A string whose last character is not a newline survives the spec's
trailing-newline strip unchanged. -/
theorem stripTrailingNewlines_of_getLast_ne (s : List Char) (hne : s ≠ [])
    (h : s.getLast? ≠ some '\n') : stripTrailingNewlines s = s := by
  unfold stripTrailingNewlines
  rw [reverse_eq_getLast_cons s hne]
  rw [dropWhile_eq_self_of_head ?_]
  · rw [← reverse_eq_getLast_cons s hne, List.reverse_reverse]
  · rw [List.getLast?_eq_getLast s hne] at h
    simp only [ne_eq, Option.some.injEq] at h
    simp [h]

/-- Removing one trailing newline commutes with the spec's strip. -/
theorem stripTrailingNewlines_concat_newline (s : List Char) :
    stripTrailingNewlines (s ++ ['\n']) = stripTrailingNewlines s := by
  unfold stripTrailingNewlines
  simp [List.dropWhile_cons]

/-- A newline-free string survives the strip unchanged. -/
theorem stripTrailingNewlines_no_newline (s : List Char) (h : '\n' ∉ s) :
    stripTrailingNewlines s = s := by
  cases hs : s with
  | nil => rfl
  | cons a t =>
    subst hs
    have hne : a :: t ≠ [] := by simp
    apply stripTrailingNewlines_of_getLast_ne _ hne
    intro hcon
    exact h (List.mem_of_getLast?_eq_some hcon)

/-- A newline-free string is its own final line. -/
theorem afterLastNewline_no_newline (s : List Char) (h : '\n' ∉ s) :
    afterLastNewline s = s := by
  unfold afterLastNewline
  rw [List.takeWhile_eq_self_iff.mpr, List.reverse_reverse]
  intro x hx
  rw [List.mem_reverse] at hx
  have : x ≠ '\n' := fun he => h (he ▸ hx)
  simp [this]

/-- Unfolding `getLastLine` on a string that ends with a newline: the
newline is removed and the search repeats. -/
theorem getLastLine_strip (s : List Char) (h : s.getLast? = some '\n') :
    getLastLine s = getLastLine s.dropLast := by
  have hm : '\n' ∈ s := List.mem_of_getLast?_eq_some h
  rw [getLastLine]
  simp [hm, h]

/-- Unfolding `getLastLine` on a newline-free string: returned whole. -/
theorem getLastLine_no_newline (s : List Char) (hm : '\n' ∉ s) :
    getLastLine s = s := by
  rw [getLastLine]
  simp [hm]

/-- `IOCapturer::getLastLine` computes exactly the spec's `lastLine`:
strip all trailing newlines, then take the suffix after the last
remaining newline. -/
theorem getLastLine_eq_lastLineSpec (s : List Char) :
    getLastLine s = lastLineSpec s := by
  suffices hgen : ∀ (n : Nat) (s : List Char), s.length = n →
      getLastLine s = lastLineSpec s from hgen s.length s rfl
  intro n
  induction n using Nat.strong_induction_on with
  | _ n ih =>
    intro s hn
    by_cases hm : '\n' ∈ s
    · have hne : s ≠ [] := List.ne_nil_of_mem hm
      have hpos : 0 < s.length := List.length_pos.mpr hne
      by_cases hl : s.getLast? = some '\n'
      · rw [getLastLine_strip s hl]
        rw [ih s.dropLast.length (by rw [List.length_dropLast]; omega)
          s.dropLast rfl]
        unfold lastLineSpec
        have hlast : s.getLast hne = '\n' := by
          have h1 := List.getLast?_eq_getLast s hne
          rw [hl] at h1
          exact (Option.some.injEq _ _).mp h1.symm
        have h2 : stripTrailingNewlines s = stripTrailingNewlines s.dropLast := by
          conv_lhs => rw [← List.dropLast_append_getLast hne, hlast]
          exact stripTrailingNewlines_concat_newline s.dropLast
        rw [h2]
      · rw [getLastLine]
        simp only [hm, dif_pos, hl, if_neg, ite_false]
        unfold lastLineSpec
        rw [stripTrailingNewlines_of_getLast_ne s hne hl]
    · rw [getLastLine_no_newline s hm]
      unfold lastLineSpec
      rw [stripTrailingNewlines_no_newline s hm, afterLastNewline_no_newline s hm]

/-- C6: `getLastLine` returns the suffix of the input after its final
newline; a trailing newline is first stripped and the search repeats;
a newline-free input is returned whole; an input consisting entirely of
newlines yields the empty string. -/
theorem getLastLine_matches_spec (s : List Char) :
    getLastLine s = lastLineSpec s
    ∧ ('\n' ∉ s → getLastLine s = s)
    ∧ (s.getLast? = some '\n' → getLastLine s = getLastLine s.dropLast)
    ∧ ((∀ c ∈ s, c = '\n') → getLastLine s = []) := by
  refine ⟨getLastLine_eq_lastLineSpec s, getLastLine_no_newline s,
    getLastLine_strip s, ?_⟩
  intro hall
  rw [getLastLine_eq_lastLineSpec s]
  unfold lastLineSpec
  have h1 : stripTrailingNewlines s = [] := by
    unfold stripTrailingNewlines
    rw [List.dropWhile_eq_nil_iff.mpr]
    · rfl
    · intro x hx
      rw [List.mem_reverse] at hx
      simp [hall x hx]
  rw [h1]
  rfl

/-- Witness for `getLastLine_matches_spec`, at the spec's own boundary
examples. -/
theorem getLastLine_matches_spec_witness :
    getLastLine ("a\nb\n".data) = "b".data
    ∧ getLastLine ("a\nb".data) = "b".data
    ∧ getLastLine ("onlyline".data) = "onlyline".data
    ∧ getLastLine ("\n\n".data) = [] := by
  refine ⟨?_, ?_, ?_, ?_⟩
  · rw [(getLastLine_matches_spec ("a\nb\n".data)).1]
    decide
  · rw [(getLastLine_matches_spec ("a\nb".data)).1]
    decide
  · exact (getLastLine_matches_spec ("onlyline".data)).2.1 (by decide)
  · exact (getLastLine_matches_spec ("\n\n".data)).2.2.2 (by decide)

/-! ### Clean runs of the test loop -/

/-- Constructing the runner's handler on a thread with no live handler
succeeds and only increments the occupancy count. -/
theorem signalHandlerCtor_of_clean (st : SignalState)
    (h0 : st.instanceCount = 0) :
    signalHandlerCtor st
      = Except.ok { st with instanceCount := st.instanceCount + 1 } := by
  unfold signalHandlerCtor
  rw [if_neg]
  omega

/-- A clean run of the loop: when the runner's handler is the only live
one, no fatal exit is pending and no test delivers a fatal signal, the
loop classifies every test per `behaviorStatus`, prints every line per
`expectedLines`, never exits early, and hands the occupancy invariant
forward. -/
theorem runTestsLoop_clean (count maxLen : Nat) :
    ∀ (tests : List (String × TestBehavior)) (st : SignalState) (i : Nat),
      st.instanceCount = 0 → st.s_exit = false →
      (∀ p ∈ tests, nonExiting p.2 = true) →
      ∃ st', runTestsLoop count maxLen st i tests
          = (st', expectedLines count maxLen i tests,
              expectedOutcomes i tests, false)
        ∧ st'.instanceCount = 0 ∧ st'.s_exit = false := by
  intro tests
  induction tests with
  | nil =>
    intro st i h0 h1 _
    exact ⟨st, rfl, h0, h1⟩
  | cons p rest ih =>
    intro st i h0 h1 hne
    obtain ⟨name, b⟩ := p
    have hb : nonExiting b = true := hne (name, b) (List.mem_cons_self _ _)
    have hrest : ∀ q ∈ rest, nonExiting q.2 = true :=
      fun q hq => hne q (List.mem_cons_of_mem _ hq)
    have hctor := signalHandlerCtor_of_clean st h0
    have h0' : ({ st with instanceCount := st.instanceCount + 1 }
        : SignalState).instanceCount = 1 := by
      simp [h0]
    cases b with
    | ret =>
        obtain ⟨st', heq, hc', he'⟩ := ih
          (signalHandlerDtor { st with instanceCount := st.instanceCount + 1 })
          (i + 1) (by simp [signalHandlerDtor, h0]) (by simp [signalHandlerDtor, h1])
          hrest
        refine ⟨st', ?_, hc', he'⟩
        simp only [runTestsLoop, hctor, runBody, heq, expectedLines,
          expectedOutcomes, behaviorText, behaviorStatus]
    | throwExc t =>
        obtain ⟨st', heq, hc', he'⟩ := ih
          (signalHandlerDtor { st with instanceCount := st.instanceCount + 1 })
          (i + 1) (by simp [signalHandlerDtor, h0]) (by simp [signalHandlerDtor, h1])
          hrest
        refine ⟨st', ?_, hc', he'⟩
        simp only [runTestsLoop, hctor, runBody, heq, expectedLines,
          expectedOutcomes, behaviorText, behaviorStatus]
    | armThenSignal signo =>
        have hsig : ¬(signo = SIGABRT ∨ signo = SIGINT ∨ signo = SIGTERM) := by
          simp only [nonExiting] at hb
          intro hcon
          rcases hcon with h | h | h <;> simp [h] at hb
        have hhandler : handler signo
              (SignalState.mk (st.instanceCount + 1) st.s_signo false)
            = SignalState.mk (st.instanceCount + 1) signo false := by
          simp only [handler]
          rw [if_neg hsig]
        obtain ⟨st', heq, hc', he'⟩ := ih
          (signalHandlerDtor (SignalState.mk (st.instanceCount + 1) signo false))
          (i + 1) (by simp [signalHandlerDtor, h0]) (by simp [signalHandlerDtor])
          hrest
        refine ⟨st', ?_, hc', he'⟩
        simp only [runTestsLoop, hctor, runBody, h1, hhandler, shouldExit,
          lastSignal, Bool.false_eq_true, if_neg, ite_false, heq,
          expectedLines, expectedOutcomes, behaviorText, behaviorStatus,
          coutOutcomeText, catchReason]
    | ctorSecondHandler =>
        have hinner : signalHandlerCtor { st with instanceCount := st.instanceCount + 1 }
            = Except.error signalHandlerReentrancyThrown := by
          unfold signalHandlerCtor
          rw [if_pos]
          omega
        obtain ⟨st', heq, hc', he'⟩ := ih
          (signalHandlerDtor { st with instanceCount := st.instanceCount + 1 })
          (i + 1) (by simp [signalHandlerDtor, h0]) (by simp [signalHandlerDtor, h1])
          hrest
        refine ⟨st', ?_, hc', he'⟩
        simp only [runTestsLoop, hctor, runBody, hinner, heq, expectedLines,
          expectedOutcomes, behaviorText, behaviorStatus,
          signalHandlerReentrancyThrown, coutOutcomeText, catchReason]

/-- A clean run of `runTests` as a whole. -/
theorem runTests_clean (st : SignalState)
    (tests : List (String × TestBehavior))
    (hc : st.instanceCount = 0) (he : st.s_exit = false)
    (hne : ∀ p ∈ tests, nonExiting p.2 = true) :
    (runTests st tests).outcomes = expectedOutcomes 0 tests
    ∧ (runTests st tests).lines
        = expectedLines tests.length
            (maxLenCode (tests.map (fun p => p.1.length))) 0 tests
    ∧ (runTests st tests).exited = false := by
  cases tests with
  | nil => exact ⟨rfl, rfl, rfl⟩
  | cons p rest =>
    obtain ⟨st', heq, -, -⟩ :=
      runTestsLoop_clean (p :: rest).length
        (maxLenCode ((p :: rest).map (fun q => q.1.length)))
        (p :: rest) st 0 hc he hne
    simp only [runTests, heq]
    exact ⟨trivial, trivial, trivial⟩

/-- `expectedOutcomes` records one outcome per test. -/
theorem expectedOutcomes_length (i : Nat)
    (l : List (String × TestBehavior)) :
    (expectedOutcomes i l).length = l.length := by
  induction l generalizing i with
  | nil => rfl
  | cons p rest ih =>
    obtain ⟨n, b⟩ := p
    simp [expectedOutcomes, ih]

/-- The outcome recorded at the position of a designated test. -/
theorem expectedOutcomes_get_mid (i : Nat)
    (pre post : List (String × TestBehavior)) (x : String × TestBehavior) :
    (expectedOutcomes i (pre ++ x :: post)).get? pre.length
      = some (i + pre.length, x.1, behaviorStatus x.2) := by
  induction pre generalizing i with
  | nil =>
    obtain ⟨n, b⟩ := x
    simp [expectedOutcomes]
  | cons p rest ih =>
    obtain ⟨n, b⟩ := p
    show ((i, n, behaviorStatus b)
        :: expectedOutcomes (i + 1) (rest ++ x :: post)).get? (rest.length + 1)
      = some (i + (rest.length + 1), x.1, behaviorStatus x.2)
    rw [List.get?_cons_succ, ih (i + 1)]
    have harith : i + 1 + rest.length = i + (rest.length + 1) := by omega
    rw [harith]

/-- C2: a test that arms a recovery point and then receives a trapped
signal not classified as fatal is recorded `Failed` with reason
`"Signal thrown: "` followed by the signal's name, the run does not
exit, and every registered test (before and after it) still gets an
outcome. -/
theorem runTests_nonfatal_signal_failed_and_continues
    (pre post : List (String × TestBehavior)) (name : String) (signo : Nat)
    (st : SignalState) (hc : st.instanceCount = 0) (he : st.s_exit = false)
    (hs : signo ≠ SIGABRT ∧ signo ≠ SIGINT ∧ signo ≠ SIGTERM)
    (hrest : ∀ p ∈ pre ++ post, nonExiting p.2 = true) :
    (runTests st (pre ++ (name, TestBehavior.armThenSignal signo) :: post)).outcomes.get?
        pre.length
      = some (pre.length, name,
          Status.failed ("Signal thrown: " ++ signalToString signo))
    ∧ (runTests st (pre ++ (name, TestBehavior.armThenSignal signo) :: post)).exited
        = false
    ∧ (runTests st (pre ++ (name, TestBehavior.armThenSignal signo) :: post)).outcomes.length
        = (pre ++ (name, TestBehavior.armThenSignal signo) :: post).length := by
  have hne : ∀ p ∈ pre ++ (name, TestBehavior.armThenSignal signo) :: post,
      nonExiting p.2 = true := by
    intro p hp
    rcases List.mem_append.mp hp with h1 | h1
    · exact hrest p (List.mem_append.mpr (Or.inl h1))
    · rcases List.mem_cons.mp h1 with h2 | h2
      · subst h2
        simp [nonExiting, hs.1, hs.2.1, hs.2.2]
      · exact hrest p (List.mem_append.mpr (Or.inr h2))
  obtain ⟨ho, -, hex⟩ := runTests_clean st
    (pre ++ (name, TestBehavior.armThenSignal signo) :: post) hc he hne
  refine ⟨?_, hex, ?_⟩
  · rw [ho, expectedOutcomes_get_mid]
    simp [behaviorStatus, signalExceptionWhat]
  · rw [ho, expectedOutcomes_length]

/-- Witness for `runTests_nonfatal_signal_failed_and_continues`: a
three-test run whose middle test takes a `SIGSEGV` after arming its
recovery point. -/
theorem runTests_nonfatal_signal_witness :
    initialSignalState.instanceCount = 0
    ∧ initialSignalState.s_exit = false
    ∧ (SIGSEGV ≠ SIGABRT ∧ SIGSEGV ≠ SIGINT ∧ SIGSEGV ≠ SIGTERM)
    ∧ (∀ p ∈ ([("alpha", TestBehavior.ret)]
          ++ [("omega", TestBehavior.ret)]), nonExiting p.2 = true)
    ∧ ((runTests initialSignalState ([("alpha", TestBehavior.ret)]
          ++ ("crashy", TestBehavior.armThenSignal SIGSEGV)
            :: [("omega", TestBehavior.ret)])).outcomes.get?
          [("alpha", TestBehavior.ret)].length
        = some ([("alpha", TestBehavior.ret)].length, "crashy",
            Status.failed ("Signal thrown: " ++ signalToString SIGSEGV))
      ∧ (runTests initialSignalState ([("alpha", TestBehavior.ret)]
          ++ ("crashy", TestBehavior.armThenSignal SIGSEGV)
            :: [("omega", TestBehavior.ret)])).exited = false
      ∧ (runTests initialSignalState ([("alpha", TestBehavior.ret)]
          ++ ("crashy", TestBehavior.armThenSignal SIGSEGV)
            :: [("omega", TestBehavior.ret)])).outcomes.length
          = ([("alpha", TestBehavior.ret)]
              ++ ("crashy", TestBehavior.armThenSignal SIGSEGV)
                :: [("omega", TestBehavior.ret)]).length) :=
  ⟨rfl, rfl, by decide, by decide,
    runTests_nonfatal_signal_failed_and_continues
      [("alpha", TestBehavior.ret)] [("omega", TestBehavior.ret)]
      "crashy" SIGSEGV initialSignalState rfl rfl (by decide) (by decide)⟩

/-- C8 (code bug): the failure summary the claim describes has no
defined rendering.  On the concrete two-test run below (names of
different lengths, the short-named test failing an assertion) the
failure list is non-empty — it holds the surviving index 1 — yet
`printResults` produces no report: its width computation reads the
dangling `__failvec` references (simpletest.cpp:133/:137) and the
summary loop's member accesses are ill-formed as written (lines 162,
165, 169); the progress pass's own width update,
`maxLen = std::strlen(elem.second)` at line 201, is likewise ill-formed
on a `UnitTest`. -/
theorem failure_summary_has_no_defined_rendering :
    failvecOf (runTests initialSignalState
        [("alpha", TestBehavior.ret),
         ("b", TestBehavior.throwExc (CppThrown.object
            (CppExcObject.failedAssertion "x == 4")))]).outcomes
      = [FailRef.mk 1]
    ∧ printResults 2 (failvecOf (runTests initialSignalState
        [("alpha", TestBehavior.ret),
         ("b", TestBehavior.throwExc (CppThrown.object
            (CppExcObject.failedAssertion "x == 4")))]).outcomes) = none := by
  decide

/-- C10: a test body constructing a second `SignalHandler` while the
runner's one is live receives a thrown *pointer* to `std::logic_error`;
the catch chain matches it only in `catch (...)`, so the case is
recorded `Failed` with reason exactly `"Unknown internal error"`, which
is not an `"Internal error: "`-prefixed message. -/
theorem second_handler_throws_pointer_unknown_internal_error
    (pre post : List (String × TestBehavior)) (name : String)
    (st st1 : SignalState) (hc : st.instanceCount = 0)
    (he : st.s_exit = false)
    (hrest : ∀ p ∈ pre ++ post, nonExiting p.2 = true)
    (h1 : st1.instanceCount > 0) :
    signalHandlerCtor st1
      = Except.error (CppThrown.pointer (CppExcObject.logicError
          "Cannot have more than one instance of signal handler at a time in one thread."))
    ∧ catchReason signalHandlerReentrancyThrown = "Unknown internal error"
    ∧ List.isPrefixOf ("Internal error: ".data)
        ("Unknown internal error".data) = false
    ∧ (runTests st (pre ++ (name, TestBehavior.ctorSecondHandler) :: post)).outcomes.get?
          pre.length
        = some (pre.length, name, Status.failed "Unknown internal error") := by
  have hne : ∀ p ∈ pre ++ (name, TestBehavior.ctorSecondHandler) :: post,
      nonExiting p.2 = true := by
    intro p hp
    rcases List.mem_append.mp hp with hA | hA
    · exact hrest p (List.mem_append.mpr (Or.inl hA))
    · rcases List.mem_cons.mp hA with hB | hB
      · subst hB
        rfl
      · exact hrest p (List.mem_append.mpr (Or.inr hB))
  refine ⟨?_, rfl, by decide, ?_⟩
  · unfold signalHandlerCtor
    rw [if_pos h1]
    rfl
  · obtain ⟨ho, -, -⟩ := runTests_clean st
      (pre ++ (name, TestBehavior.ctorSecondHandler) :: post) hc he hne
    rw [ho, expectedOutcomes_get_mid]
    simp [behaviorStatus]

/-- Witness for `second_handler_throws_pointer_unknown_internal_error`
with the reentrant construction attempted in the only test of a run. -/
theorem second_handler_pointer_witness :
    initialSignalState.instanceCount = 0
    ∧ initialSignalState.s_exit = false
    ∧ (∀ p ∈ (([] : List (String × TestBehavior)) ++ []), nonExiting p.2 = true)
    ∧ (SignalState.mk 1 0 false).instanceCount > 0
    ∧ (signalHandlerCtor (SignalState.mk 1 0 false)
        = Except.error (CppThrown.pointer (CppExcObject.logicError
            "Cannot have more than one instance of signal handler at a time in one thread."))
      ∧ catchReason signalHandlerReentrancyThrown = "Unknown internal error"
      ∧ List.isPrefixOf ("Internal error: ".data)
          ("Unknown internal error".data) = false
      ∧ (runTests initialSignalState
            (([] : List (String × TestBehavior))
              ++ ("dup_handler", TestBehavior.ctorSecondHandler) :: [])).outcomes.get?
            ([] : List (String × TestBehavior)).length
          = some (([] : List (String × TestBehavior)).length, "dup_handler",
              Status.failed "Unknown internal error")) :=
  ⟨rfl, rfl, by decide, by decide,
    second_handler_throws_pointer_unknown_internal_error [] [] "dup_handler"
      initialSignalState (SignalState.mk 1 0 false) rfl rfl (by decide)
      (by decide)⟩

end simpletest
